import Mathlib

/-!
Verification development for the webhook transaction service
(`src/backend_assessment/main.py`).

The service keeps an in-memory dictionary `TRANSACTIONS` mapping
transaction ids to record dictionaries, guarded by one global lock.
We embed it shallowly:

* JSON values (request payloads, stored field values) are modelled by
  `JAtom` / `JVal`, covering JSON nesting depth one, which includes every
  payload shape the service's own code and tests exercise.
* The store is an association list `Store`; the Python dict operations
  `get`, `in` and item assignment are `lookupTxn`, `containsKey`, `setTxn`.
* Each HTTP handler and the background worker become pure functions from
  the parsed request plus the current store to a response plus the new
  store.  The current wall-clock reading is passed in as an argument
  (`ts`), since `get_utc_timestamp()` is the only source of time.
* The worker's `time.sleep(30)` is a step with no store effect; whether
  it raises is an input (`sleepRaises`), and because `process_transaction`
  contains no `try`/`except`, a raised exception is returned in the first
  component of the result (it escapes the function).
* Interleavings of several concurrently submitted worker tasks for one id
  are modelled by a small-step scheduler (`wstep` / `runSched`): the
  status check under the lock is one atomic step, the completion write
  under the lock is one atomic step, and the sleep is the gap between
  them.
-/

namespace BackendAssessment

/-- The `status` field of a stored transaction record: the code only ever
writes the strings PROCESSING and PROCESSED. -/
inductive Status where
  | PROCESSING
  | PROCESSED
deriving DecidableEq, Repr

/-- Atomic JSON values (Python scalars after `request.get_json()`).
A number is `mantissa * 10 ^ exp10`, so the literal 99.99 is
`num 9999 (-2)`. -/
inductive JAtom where
  | null
  | bool (b : Bool)
  | num (mantissa : Int) (exp10 : Int)
  | str (s : String)
deriving DecidableEq, Repr

/-- A parsed JSON request body, to nesting depth one: an atom, an array of
atoms, or an object with atomic field values. -/
inductive JVal where
  | atom (a : JAtom)
  | arr (elems : List JAtom)
  | obj (fields : List (String × JAtom))
deriving DecidableEq, Repr

/-- The record dictionary `transaction_data` built by `receive_webhook`
and stored in `TRANSACTIONS` (main.py lines 87-96).  The four payload
fields come from `data.get(...)`, which yields `None` (here `JAtom.null`)
when the key is missing. -/
structure TxnRecord where
  transaction_id : JAtom
  source_account : JAtom
  destination_account : JAtom
  amount : JAtom
  currency : JAtom
  status : Status
  created_at : String
  processed_at : Option String
deriving DecidableEq, Repr

/-- The global `TRANSACTIONS` dictionary, as an association list from the
(hashable) id value to the record. -/
abbrev Store := List (JAtom × TxnRecord)

/-- `TRANSACTIONS.get(k)`. -/
def lookupTxn : Store → JAtom → Option TxnRecord
  | [], _ => none
  | (k, r) :: rest, key => if k = key then some r else lookupTxn rest key

/-- `k in TRANSACTIONS`. -/
def containsKey (s : Store) (key : JAtom) : Bool :=
  (lookupTxn s key).isSome

/-- `TRANSACTIONS[k] = r`: replace the binding if the key is present,
else append a new one. -/
def setTxn : Store → JAtom → TxnRecord → Store
  | [], key, r => [(key, r)]
  | (k, r0) :: rest, key, r =>
    if k = key then (k, r) :: rest else (k, r0) :: setTxn rest key r

/-- Python truthiness of a parsed JSON value (`not data`):
`None`, `False`, `0`, `""`, `[]` and `{ }` are falsy. -/
def pyTruthy : JVal → Bool
  | JVal.atom JAtom.null => false
  | JVal.atom (JAtom.bool b) => b
  | JVal.atom (JAtom.num m _) => m ≠ 0
  | JVal.atom (JAtom.str s) => s ≠ ""
  | JVal.arr l => l ≠ []
  | JVal.obj l => l ≠ []

/-- `pfx` is a leading segment of `s` (on character lists). -/
def leadsWith : List Char → List Char → Bool
  | [], _ => true
  | _ :: _, [] => false
  | c :: p, d :: s => c = d && leadsWith p s

/-- Python `sub in s` for strings: substring containment. -/
def containsSub (p : List Char) : List Char → Bool
  | [] => leadsWith p []
  | d :: rest => leadsWith p (d :: rest) || containsSub p rest

/-- Python `key in data` (main.py line 80).  Succeeds with a Bool for
containers (dict key membership, list element equality, string substring)
and raises `TypeError` for scalars, which the handler's blanket
`except Exception` turns into a 500. -/
def pyContains (key : String) : JVal → Except String Bool
  | JVal.obj fields => Except.ok (fields.any (fun p => p.1 = key))
  | JVal.arr elems =>
    Except.ok (elems.any (fun a => match a with
      | JAtom.str t => t = key
      | _ => false))
  | JVal.atom (JAtom.str s) => Except.ok (containsSub key.toList s.toList)
  | JVal.atom _ => Except.error "TypeError"

/-- `data.get(key)` on the object's field list: the value if present,
Python `None` otherwise. -/
def pyGet (key : String) (fields : List (String × JAtom)) : JAtom :=
  match fields.find? (fun p => p.1 = key) with
  | some p => p.2
  | none => JAtom.null

/-- Result of `receive_webhook`: 202 with the id echoed in the message,
400 with body error "Invalid payload", or 500 from the blanket handler. -/
inductive WResp where
  | accepted (txnId : JAtom)
  | invalidPayload
  | internalError
deriving DecidableEq, Repr

/-- `receive_webhook` (main.py lines 73-121).  `body` is the result of
`request.get_json()`: `none` models the call itself raising (malformed
body), which the `except Exception` block turns into a 500.  `ts` is the
`get_utc_timestamp()` reading taken at line 84.  Returns the response and
the new `TRANSACTIONS` state. -/
def receive_webhook (body : Option JVal) (ts : String) (s : Store) :
    WResp × Store :=
  match body with
  | none => (WResp.internalError, s)
  | some data =>
    if pyTruthy data = false then (WResp.invalidPayload, s)
    else
      match pyContains "transaction_id" data with
      | Except.error _ => (WResp.internalError, s)
      | Except.ok false => (WResp.invalidPayload, s)
      | Except.ok true =>
        match data with
        | JVal.obj fields =>
          let txnId := pyGet "transaction_id" fields
          let rec0 : TxnRecord :=
            { transaction_id := txnId
              source_account := pyGet "source_account" fields
              destination_account := pyGet "destination_account" fields
              amount := pyGet "amount" fields
              currency := pyGet "currency" fields
              status := Status.PROCESSING
              created_at := ts
              processed_at := none }
          let s' := if containsKey s txnId then s else s ++ [(txnId, rec0)]
          (WResp.accepted txnId, s')
        | _ =>
          -- data['transaction_id'] on a list or string raises TypeError,
          -- caught by the blanket handler: 500.
          (WResp.internalError, s)

/-- The status check `TRANSACTIONS.get(txn_id, dict()).get('status')`
performed under the lock (main.py line 40). -/
def statusCheck (s : Store) (id : JAtom) : Option Status :=
  (lookupTxn s id).map (fun r => r.status)

/-- `process_transaction` (main.py lines 31-56), sequential view.
`sleepRaises = some e` means the simulated long-running step raises `e`;
since the function body has no `try`/`except`, the exception leaves the
function, which we model as `some e` in the first component (the store is
then whatever it was when the exception fired).  The completion write
(lines 52-54) is `TRANSACTIONS[txn_id]['status'] = ...`, an item access
that raises `KeyError` when the id is absent. -/
def process_transaction (sleepRaises : Option String) (ts : String)
    (d : TxnRecord) (s : Store) : Option String × Store :=
  let txnId := d.transaction_id
  if statusCheck s txnId = some Status.PROCESSED then
    -- idempotency skip: log and return before the sleep
    (none, s)
  else
    match sleepRaises with
    | some e => (some e, s)
    | none =>
      match lookupTxn s txnId with
      | none => (some "KeyError", s)
      | some r =>
        (none, setTxn s txnId
          { r with status := Status.PROCESSED, processed_at := some ts })

/-- Result of `get_transaction_status`: 200 with the full record, or 404. -/
inductive QResp where
  | found (r : TxnRecord)
  | notFound
deriving DecidableEq, Repr

/-- `get_transaction_status` (main.py lines 123-135): read-only lookup by
the string id taken from the URL path. -/
def get_transaction_status (transaction_id : String) (s : Store) : QResp :=
  match lookupTxn s (JAtom.str transaction_id) with
  | some r => QResp.found r
  | none => QResp.notFound

/-- The dummy record inserted by the `__main__` block (main.py lines
141-151); `ts1`, `ts2` are the two `get_utc_timestamp()` readings. -/
def seedRecord (ts1 ts2 : String) : TxnRecord :=
  { transaction_id := JAtom.str "txn_test_ready"
    source_account := JAtom.str "acc_user_100"
    destination_account := JAtom.str "acc_merchant_100"
    amount := JAtom.num 9999 (-2)
    currency := JAtom.str "USD"
    status := Status.PROCESSED
    created_at := ts1
    processed_at := some ts2 }

/-- The store after the `__main__` block seeds the (initially empty)
`TRANSACTIONS` dictionary, before any request is served. -/
def mainSeededStore (ts1 ts2 : String) : Store :=
  setTxn [] (JAtom.str "txn_test_ready") (seedRecord ts1 ts2)

/-! ### Timestamp formatting (`get_utc_timestamp`, main.py lines 25-27)

`datetime.now(timezone.utc).isoformat()` yields
`YYYY-MM-DDTHH:MM:SS[.ffffff]+00:00` (the fractional part is omitted when
the microsecond field is zero); the code then runs
`.replace(plus-zero-zero-colon-zero-zero, Z)` on it.  We model the
formatted output as a list of characters. -/

/-- A UTC wall-clock reading, the fields `datetime.isoformat` prints.
`datetime` guarantees `year ≤ 9999` and `microsecond < 1000000`, so the
fixed-width digit fields below cover the whole range. -/
structure DateTimeUTC where
  year : Nat
  month : Nat
  day : Nat
  hour : Nat
  minute : Nat
  second : Nat
  microsecond : Nat
deriving DecidableEq, Repr

/-- The decimal digit character for `n % 10`. -/
def digitChar (n : Nat) : Char :=
  match n % 10 with
  | 0 => '0'
  | 1 => '1'
  | 2 => '2'
  | 3 => '3'
  | 4 => '4'
  | 5 => '5'
  | 6 => '6'
  | 7 => '7'
  | 8 => '8'
  | _ => '9'

/-- `n` printed as `w` decimal digits, zero-padded (most significant
first). -/
def padDigits (w n : Nat) : List Char :=
  (List.range w).reverse.map (fun i => digitChar (n / 10 ^ i))

/-- The UTC offset suffix `isoformat` appends: plus, two zeros, a colon,
two zeros. -/
def utcOffsetChars : List Char := ['+', '0', '0', ':', '0', '0']

/-- Everything `isoformat` prints before the UTC offset suffix:
date, time and optional fractional seconds. -/
def datePartUTC (d : DateTimeUTC) : List Char :=
  padDigits 4 d.year ++ ['-'] ++ padDigits 2 d.month ++ ['-'] ++
    padDigits 2 d.day ++ ['T'] ++ padDigits 2 d.hour ++ [':'] ++
    padDigits 2 d.minute ++ [':'] ++ padDigits 2 d.second ++
    (if d.microsecond = 0 then [] else '.' :: padDigits 6 d.microsecond)

/-- `datetime.now(timezone.utc).isoformat()`. -/
def isoformatUTC (d : DateTimeUTC) : List Char :=
  datePartUTC d ++ utcOffsetChars

/-- Python `s.replace(p, r)` for a non-empty pattern `p`: replace every
non-overlapping occurrence, scanning left to right.  (For an empty
pattern the code never calls it, and we return `s` unchanged.) -/
def replaceAll (p r : List Char) (s : List Char) : List Char :=
  match s with
  | [] => []
  | c :: rest =>
    if leadsWith p (c :: rest) && p.length != 0 then
      r ++ replaceAll p r (rest.drop (p.length - 1))
    else
      c :: replaceAll p r rest
termination_by s.length
decreasing_by
  · simp only [List.length_cons, List.length_drop]
    omega
  · simp only [List.length_cons]
    omega

/-- `get_utc_timestamp` (main.py lines 25-27): the `isoformat` output with
every occurrence of the `+00:00` offset replaced by `Z`. -/
def get_utc_timestamp (d : DateTimeUTC) : List Char :=
  replaceAll utcOffsetChars ['Z'] (isoformatUTC d)

/-! ### Interleaved duplicate worker attempts (claim C1)

Several duplicate webhook deliveries for one id submit several
`process_transaction` tasks for that id.  Each task takes the lock for
its status check (one atomic step), sleeps (no store effect), and takes
the lock again for its completion write (one atomic step).  A scheduler
choosing which attempt moves next captures every interleaving of these
lock-protected critical sections. -/

/-- Where a single worker attempt stands: before its status check,
sleeping (check passed), done via the skip path, done via the completion
write, or crashed on the `KeyError` of a vanished record. -/
inductive WPc where
  | preCheck
  | sleeping
  | skipped
  | written
  | crashed
deriving DecidableEq, Repr

/-- Distinct timestamp strings for successive completion writes: the
`n`-th `get_utc_timestamp()` reading observed by a write. -/
def tsOf (n : Nat) : String :=
  String.mk (padDigits 4 n)

/-- Global state of an interleaved execution: each attempt's program
counter, the shared store, the log of every value ever assigned to
`processed_at` (in write order), and a clock counter. -/
structure CState where
  pcs : List WPc
  store : Store
  palog : List String
  tick : Nat
deriving DecidableEq, Repr

/-- One atomic step of attempt `i` working on id `id`:
* at `preCheck`, perform the locked status check of main.py line 40 and
  either skip (status already PROCESSED) or proceed to the sleep;
* at `sleeping`, perform the locked completion write of main.py
  lines 52-54 — unconditionally, as the code does;
* otherwise the attempt is finished and the step does nothing. -/
def wstep (id : JAtom) (c : CState) (i : Nat) : CState :=
  match c.pcs.get? i with
  | some WPc.preCheck =>
    if statusCheck c.store id = some Status.PROCESSED then
      { c with pcs := c.pcs.set i WPc.skipped }
    else
      { c with pcs := c.pcs.set i WPc.sleeping }
  | some WPc.sleeping =>
    match lookupTxn c.store id with
    | some r =>
      { pcs := c.pcs.set i WPc.written
        store := setTxn c.store id
          { r with status := Status.PROCESSED,
                   processed_at := some (tsOf c.tick) }
        palog := c.palog ++ [tsOf c.tick]
        tick := c.tick + 1 }
    | none => { c with pcs := c.pcs.set i WPc.crashed }
  | _ => c

/-- Run a schedule: at each point the named attempt takes its next atomic
step. -/
def runSched (id : JAtom) : CState → List Nat → CState
  | c, [] => c
  | c, i :: rest => runSched id (wstep id c i) rest

/-! ### Derived views and invariants -/

/-- The parts of a stored record that only the first webhook delivery for
the id determines: the four pass-through payload fields and `created_at`. -/
def payloadView (r : TxnRecord) : JAtom × JAtom × JAtom × JAtom × String :=
  (r.source_account, r.destination_account, r.amount, r.currency,
    r.created_at)

/-- The per-record invariant of the spec's data model:
`processed_at` is non-null iff `status == PROCESSED`. -/
def recInv (r : TxnRecord) : Prop :=
  r.processed_at ≠ none ↔ r.status = Status.PROCESSED

instance (r : TxnRecord) : Decidable (recInv r) := by
  unfold recInv; infer_instance

/-- Every record in the store satisfies `recInv`. -/
def storeInv (s : Store) : Prop :=
  ∀ p ∈ s, recInv p.2

instance (s : Store) : Decidable (storeInv s) := by
  unfold storeInv; infer_instance

/-! ### Helper lemmas about the store -/

theorem lookupTxn_setTxn (s : Store) (key k : JAtom) (r : TxnRecord) :
    lookupTxn (setTxn s key r) k =
      if key = k then some r else lookupTxn s k := by
  induction s with
  | nil => simp [setTxn, lookupTxn]
  | cons hd tl ih =>
    obtain ⟨k0, r0⟩ := hd
    by_cases h0 : k0 = key
    · subst h0
      simp only [setTxn, if_pos rfl, lookupTxn]
      by_cases hk : k0 = k
      · subst hk; simp
      · simp [hk]
    · simp only [setTxn, if_neg h0, lookupTxn]
      by_cases hk : k0 = k
      · subst hk
        have : ¬ key = k0 := fun h => h0 h.symm
        simp [this]
      · simp [hk, ih]

theorem mem_setTxn (s : Store) (key k : JAtom) (r r' : TxnRecord)
    (h : (k, r') ∈ setTxn s key r) : r' = r ∨ (k, r') ∈ s := by
  induction s with
  | nil =>
    simp only [setTxn, List.mem_singleton] at h
    exact Or.inl (congrArg Prod.snd h)
  | cons hd tl ih =>
    obtain ⟨k0, r0⟩ := hd
    by_cases h0 : k0 = key
    · simp only [setTxn, if_pos h0, List.mem_cons] at h
      rcases h with h | h
      · exact Or.inl (congrArg Prod.snd h)
      · exact Or.inr (List.mem_cons_of_mem _ h)
    · simp only [setTxn, if_neg h0, List.mem_cons] at h
      rcases h with h | h
      · exact Or.inr (List.mem_cons.mpr (Or.inl h))
      · rcases ih h with h' | h'
        · exact Or.inl h'
        · exact Or.inr (List.mem_cons_of_mem _ h')

theorem lookupTxn_mem (s : Store) (k : JAtom) (r : TxnRecord)
    (h : lookupTxn s k = some r) : (k, r) ∈ s ∨ ∃ k', (k', r) ∈ s := by
  induction s with
  | nil => simp [lookupTxn] at h
  | cons hd tl ih =>
    obtain ⟨k0, r0⟩ := hd
    simp only [lookupTxn] at h
    by_cases hk : k0 = k
    · rw [if_pos hk] at h
      have hr : r0 = r := Option.some.inj h
      subst hr
      exact Or.inr ⟨k0, by simp⟩
    · rw [if_neg hk] at h
      rcases ih h with h' | ⟨k', h'⟩
      · exact Or.inl (List.mem_cons_of_mem _ h')
      · exact Or.inr ⟨k', List.mem_cons_of_mem _ h'⟩

/-- The worker never changes the pass-through payload fields or
`created_at` of any stored record: its only writes are the `status` and
`processed_at` assignments of main.py lines 53-54. -/
theorem process_transaction_payloadView (sr : Option String) (ts : String)
    (d : TxnRecord) (s : Store) (k : JAtom) :
    (lookupTxn (process_transaction sr ts d s).2 k).map payloadView =
      (lookupTxn s k).map payloadView := by
  unfold process_transaction
  by_cases hst : statusCheck s d.transaction_id = some Status.PROCESSED
  · simp [hst]
  · rw [if_neg hst]
    cases sr with
    | some e => rfl
    | none =>
      cases hl : lookupTxn s d.transaction_id with
      | none => rfl
      | some r =>
        simp only [lookupTxn_setTxn]
        by_cases hk : d.transaction_id = k
        · subst hk
          simp [hl, payloadView]
        · simp [hk]

/-! ### Concrete fixtures used by witnesses and counterexamples -/

/-- The record a first webhook delivery with id t1 and amount 10 stores. -/
def demoRec : TxnRecord :=
  { transaction_id := JAtom.str "t1"
    source_account := JAtom.str "acc_a"
    destination_account := JAtom.str "acc_b"
    amount := JAtom.num 10 0
    currency := JAtom.str "USD"
    status := Status.PROCESSING
    created_at := "c0"
    processed_at := none }

/-- A store holding exactly the t1 record, still PROCESSING. -/
def demoStore : Store := [(JAtom.str "t1", demoRec)]

/-- Two duplicate worker attempts for t1, both before their status
checks, over `demoStore`. -/
def c1Init : CState :=
  { pcs := [WPc.preCheck, WPc.preCheck]
    store := demoStore
    palog := []
    tick := 0 }

/-! ### Claims -/

/-- C5: a duplicate webhook delivery for an id already in the store leaves
the whole store — in particular that id's record, its payload fields and
its `created_at` — unchanged (main.py lines 99-107 only insert when the
id is absent); and no worker run ever changes a stored record's payload
fields or `created_at`, so a status query keeps returning the first
delivery's values no matter what field values later duplicate deliveries
carry. -/
theorem C5_duplicate_delivery_preserves_record
    (fields : List (String × JAtom)) (ts : String) (s : Store)
    (r0 : TxnRecord)
    (h : lookupTxn s (pyGet "transaction_id" fields) = some r0) :
    (receive_webhook (some (JVal.obj fields)) ts s).2 = s ∧
    (∀ sr ts2 d k,
      (lookupTxn (process_transaction sr ts2 d s).2 k).map payloadView =
        (lookupTxn s k).map payloadView) := by
  constructor
  · simp only [receive_webhook]
    by_cases ht : pyTruthy (JVal.obj fields) = false
    · simp [ht]
    · rw [if_neg ht]
      rcases hc : pyContains "transaction_id" (JVal.obj fields) with e | b
      · simp [hc]
      · cases b with
        | false => simp [hc]
        | true =>
          have hck : containsKey s (pyGet "transaction_id" fields) = true := by
            unfold containsKey
            rw [h]
            rfl
          simp [hc, hck]
  · intro sr ts2 d k
    exact process_transaction_payloadView sr ts2 d s k

theorem C5_witness :
    (receive_webhook
        (some (JVal.obj [("transaction_id", JAtom.str "t1"),
                         ("amount", JAtom.num 999 0)]))
        "c9" demoStore).2 = demoStore ∧
    (lookupTxn
        (process_transaction none "p1" demoRec demoStore).2
        (JAtom.str "t1")).map payloadView =
      (lookupTxn demoStore (JAtom.str "t1")).map payloadView := by
  have h := C5_duplicate_delivery_preserves_record
    [("transaction_id", JAtom.str "t1"), ("amount", JAtom.num 999 0)]
    "c9" demoStore demoRec (by decide)
  exact ⟨h.1, h.2 none "p1" demoRec (JAtom.str "t1")⟩

/-- C6: when the record's status is already PROCESSED, the worker is a
no-op on the store: the status check of main.py lines 39-43 returns
before the sleep (the conclusion holds for every sleep outcome `sr`,
raising or not, because the sleep is never reached) and before any write;
hence running it twice in sequence equals running it once. -/
theorem C6_processed_skip_noop (sr : Option String) (ts : String)
    (d : TxnRecord) (s : Store)
    (h : statusCheck s d.transaction_id = some Status.PROCESSED) :
    process_transaction sr ts d s = (none, s) ∧
    (∀ sr2 ts2,
      process_transaction sr2 ts2 d (process_transaction sr ts d s).2 =
        process_transaction sr2 ts2 d s) := by
  have h1 : process_transaction sr ts d s = (none, s) := by
    unfold process_transaction
    simp [h]
  exact ⟨h1, fun sr2 ts2 => by rw [h1]⟩

theorem C6_witness :
    process_transaction (some "boom") "p1" (seedRecord "a" "b")
        (mainSeededStore "a" "b") = (none, mainSeededStore "a" "b") := by
  exact (C6_processed_skip_noop (some "boom") "p1" (seedRecord "a" "b")
    (mainSeededStore "a" "b") (by decide)).1

/-- C9: the worker's effect on the store depends only on the
`transaction_id` field of the snapshot it was handed: two snapshots with
the same id but arbitrarily different payload fields yield identical
results (main.py lines 31-54 read nothing but the id from the argument). -/
theorem C9_worker_depends_only_on_id (d1 d2 : TxnRecord)
    (h : d1.transaction_id = d2.transaction_id) (sr : Option String)
    (ts : String) (s : Store) :
    process_transaction sr ts d1 s = process_transaction sr ts d2 s := by
  unfold process_transaction
  rw [h]

theorem C9_witness :
    process_transaction none "p1" demoRec demoStore =
      process_transaction none "p1"
        { transaction_id := JAtom.str "t1"
          source_account := JAtom.str "other_src"
          destination_account := JAtom.str "other_dst"
          amount := JAtom.num 777777 (-3)
          currency := JAtom.str "EUR"
          status := Status.PROCESSING
          created_at := "c42"
          processed_at := none } demoStore := by
  exact C9_worker_depends_only_on_id demoRec _ (by decide) none "p1"
    demoStore

/-- C10: the main script pre-seeds the empty store with a record keyed
txn_test_ready whose status is PROCESSED and whose `processed_at` is set
(main.py lines 139-151), so before any webhook is received the store is
not empty and a status query for txn_test_ready finds that record
(main.py lines 123-135). -/
theorem C10_main_seeds_store (ts1 ts2 : String) :
    mainSeededStore ts1 ts2 ≠ [] ∧
    lookupTxn (mainSeededStore ts1 ts2) (JAtom.str "txn_test_ready") =
      some (seedRecord ts1 ts2) ∧
    (seedRecord ts1 ts2).status = Status.PROCESSED ∧
    (seedRecord ts1 ts2).processed_at = some ts2 ∧
    get_transaction_status "txn_test_ready" (mainSeededStore ts1 ts2) =
      QResp.found (seedRecord ts1 ts2) := by
  refine ⟨by simp [mainSeededStore, setTxn], ?_, rfl, rfl, ?_⟩
  · simp [mainSeededStore, setTxn, lookupTxn]
  · simp [get_transaction_status, mainSeededStore, setTxn, lookupTxn]

/-- C7: the data-model invariant — `processed_at` is non-null iff
`status = PROCESSED` — holds for every record after every operation: it
is preserved by the ingestion handler (which only ever inserts a fresh
PROCESSING record with `processed_at = None`, main.py lines 87-102), by
the worker (whose only write sets both fields together, lines 52-54), it
holds for the seeded store of the main block, and every record a status
query returns satisfies it. -/
theorem C7_processed_at_iff_processed (s : Store) (hs : storeInv s) :
    (∀ body ts, storeInv (receive_webhook body ts s).2) ∧
    (∀ sr ts d, storeInv (process_transaction sr ts d s).2) ∧
    (∀ ts1 ts2, storeInv (mainSeededStore ts1 ts2)) ∧
    (∀ id r, get_transaction_status id s = QResp.found r → recInv r) := by
  refine ⟨?_, ?_, ?_, ?_⟩
  · intro body ts
    cases body with
    | none => exact hs
    | some data =>
      simp only [receive_webhook]
      by_cases ht : pyTruthy data = false
      · simp only [ht, if_pos]
        exact hs
      · rw [if_neg ht]
        rcases hc : pyContains "transaction_id" data with e | b
        · exact hs
        · cases b with
          | false => exact hs
          | true =>
            cases data with
            | atom a => exact hs
            | arr l => exact hs
            | obj fields =>
              by_cases hck :
                  containsKey s (pyGet "transaction_id" fields) = true
              · simp only [hck, if_pos]
                exact hs
              · simp only [hck]
                intro p hp
                rcases List.mem_append.mp hp with hmem | hmem
                · exact hs p hmem
                · rw [List.mem_singleton.mp hmem]
                  simp [recInv]
  · intro sr ts d
    unfold process_transaction
    by_cases hst : statusCheck s d.transaction_id = some Status.PROCESSED
    · simp only [hst, if_pos]
      exact hs
    · rw [if_neg hst]
      cases sr with
      | some e => exact hs
      | none =>
        cases hl : lookupTxn s d.transaction_id with
        | none => exact hs
        | some r =>
          intro p hp
          obtain ⟨k', r'⟩ := p
          rcases mem_setTxn s d.transaction_id k' _ r' hp with hr | hr
          · rw [hr]
            simp [recInv]
          · exact hs _ hr
  · intro ts1 ts2
    intro p hp
    simp only [mainSeededStore, setTxn, List.mem_singleton] at hp
    rw [hp]
    simp [recInv, seedRecord]
  · intro id r hq
    unfold get_transaction_status at hq
    cases hl : lookupTxn s (JAtom.str id) with
    | none => rw [hl] at hq; cases hq
    | some r' =>
      rw [hl] at hq
      have hr : r' = r := by cases hq; rfl
      subst hr
      rcases lookupTxn_mem s (JAtom.str id) r' hl with hm | ⟨k', hm⟩
      · exact hs _ hm
      · exact hs _ hm

theorem C7_witness :
    storeInv (receive_webhook
        (some (JVal.obj [("transaction_id", JAtom.str "t2")])) "c1"
        demoStore).2 ∧
    storeInv (process_transaction none "p1" demoRec demoStore).2 ∧
    storeInv (mainSeededStore "a" "b") := by
  have h := C7_processed_at_iff_processed demoStore (by decide)
  exact ⟨h.1 _ "c1", h.2.1 none "p1" demoRec, h.2.2.1 "a" "b"⟩

/-- C2 as stated is false: the handler checks only that the parsed body
is truthy and that the key transaction_id is present (main.py line 80),
never that its value is non-empty.  A payload whose transaction_id is the
empty string — which the claim says must yield 400 with no record — is
accepted with 202 and creates a record keyed by the empty string. -/
theorem C2_counterexample :
    (receive_webhook (some (JVal.obj [("transaction_id", JAtom.str "")]))
        "t0" []).1 = WResp.accepted (JAtom.str "") ∧
    (receive_webhook (some (JVal.obj [("transaction_id", JAtom.str "")]))
        "t0" []).2 ≠ [] := by
  decide

/-- C2 amended: the handler returns 400 (body error "Invalid payload")
exactly when the parsed body is falsy (None, false, zero, empty string,
array or object) or the Python membership test for the key succeeds and
fails to find transaction_id (object without the key, array without that
string element, string without that substring); emptiness of the value is
never checked, and a truthy body on which the membership test or the
subscript raises a TypeError yields 500, not 400.  On the 400 path the
store is unchanged — no record is created. -/
theorem C2_invalid_payload_iff (body : Option JVal) (ts : String)
    (s : Store) :
    ((receive_webhook body ts s).1 = WResp.invalidPayload ↔
      (∃ d, body = some d ∧
        (pyTruthy d = false ∨
          pyContains "transaction_id" d = Except.ok false))) ∧
    ((receive_webhook body ts s).1 = WResp.invalidPayload →
      (receive_webhook body ts s).2 = s) := by
  cases body with
  | none =>
    constructor
    · constructor
      · intro h
        cases h
      · rintro ⟨d, hd, _⟩
        cases hd
    · intro h
      cases h
  | some d =>
    by_cases ht : pyTruthy d = false
    · have h1 : receive_webhook (some d) ts s = (WResp.invalidPayload, s) := by
        simp [receive_webhook, ht]
      rw [h1]
      exact ⟨⟨fun _ => ⟨d, rfl, Or.inl ht⟩, fun _ => rfl⟩, fun _ => rfl⟩
    · rcases hc : pyContains "transaction_id" d with e | b
      · have h1 : receive_webhook (some d) ts s = (WResp.internalError, s) := by
          simp [receive_webhook, if_neg ht, hc]
        rw [h1]
        constructor
        · constructor
          · intro h
            cases h
          · rintro ⟨d', hd, hcase⟩
            have hdd : d' = d := (Option.some.inj hd).symm
            subst hdd
            rcases hcase with h | h
            · exact absurd h ht
            · rw [hc] at h
              cases h
        · intro h
          cases h
      · cases b with
        | false =>
          have h1 : receive_webhook (some d) ts s = (WResp.invalidPayload, s) := by
            simp [receive_webhook, if_neg ht, hc]
          rw [h1]
          exact ⟨⟨fun _ => ⟨d, rfl, Or.inr hc⟩, fun _ => rfl⟩, fun _ => rfl⟩
        | true =>
          have hnot : ¬ (∃ d', some d = some d' ∧
              (pyTruthy d' = false ∨
                pyContains "transaction_id" d' = Except.ok false)) := by
            rintro ⟨d', hd, hcase⟩
            have hdd : d' = d := (Option.some.inj hd).symm
            subst hdd
            rcases hcase with h | h
            · exact absurd h ht
            · rw [hc] at h
              cases h
          cases d with
          | obj fields =>
            have h1 : (receive_webhook (some (JVal.obj fields)) ts s).1 =
                WResp.accepted (pyGet "transaction_id" fields) := by
              simp [receive_webhook, if_neg ht, hc]
            rw [h1]
            constructor
            · constructor
              · intro h
                cases h
              · intro h
                exact absurd h hnot
            · intro h
              cases h
          | atom a =>
            have h1 : (receive_webhook (some (JVal.atom a)) ts s).1 =
                WResp.internalError := by
              simp [receive_webhook, if_neg ht, hc]
            rw [h1]
            constructor
            · constructor
              · intro h
                cases h
              · intro h
                exact absurd h hnot
            · intro h
              cases h
          | arr l =>
            have h1 : (receive_webhook (some (JVal.arr l)) ts s).1 =
                WResp.internalError := by
              simp [receive_webhook, if_neg ht, hc]
            rw [h1]
            constructor
            · constructor
              · intro h
                cases h
              · intro h
                exact absurd h hnot
            · intro h
              cases h

theorem C2_witness :
    (receive_webhook (some (JVal.atom JAtom.null)) "t0" demoStore).1 =
      WResp.invalidPayload ∧
    (receive_webhook (some (JVal.atom JAtom.null)) "t0" demoStore).2 =
      demoStore := by
  have h := C2_invalid_payload_iff (some (JVal.atom JAtom.null)) "t0"
    demoStore
  have h1 : (receive_webhook (some (JVal.atom JAtom.null)) "t0"
      demoStore).1 = WResp.invalidPayload :=
    h.1.mpr ⟨JVal.atom JAtom.null, rfl, Or.inl rfl⟩
  exact ⟨h1, h.2 h1⟩

/-- C3 as stated is false: `process_transaction` contains no try-except
(main.py lines 31-56), so an exception raised during the sleep is not
caught or logged inside the worker — it leaves the function (and is then
silently swallowed by the executor future).  Concretely, on a store whose
t1 record is still PROCESSING, a raising sleep makes the run end with the
exception escaping; the store is untouched. -/
theorem C3_counterexample :
    (process_transaction (some "io-error") "p9" demoRec demoStore).1 =
      some "io-error" ∧
    (process_transaction (some "io-error") "p9" demoRec demoStore).2 =
      demoStore := by
  decide

/-- C3 amended: an exception raised during the long-running step escapes
`process_transaction` uncaught (there is no try-except in the function;
the executor future absorbs it unlogged); the completion write never
happens, the store is unchanged, and in particular the record keeps the
status it had — PROCESSING stays PROCESSING forever. -/
theorem C3_exception_escapes (e ts : String) (d : TxnRecord) (s : Store)
    (h : statusCheck s d.transaction_id ≠ some Status.PROCESSED) :
    process_transaction (some e) ts d s = (some e, s) ∧
    (∀ r, lookupTxn s d.transaction_id = some r →
      lookupTxn (process_transaction (some e) ts d s).2 d.transaction_id =
        some r) := by
  have h1 : process_transaction (some e) ts d s = (some e, s) := by
    unfold process_transaction
    simp [h]
  refine ⟨h1, fun r hr => ?_⟩
  rw [h1]
  exact hr

theorem C3_witness :
    process_transaction (some "boom") "p1" demoRec demoStore =
      (some "boom", demoStore) ∧
    lookupTxn (process_transaction (some "boom") "p1" demoRec demoStore).2
        demoRec.transaction_id = some demoRec := by
  have h := C3_exception_escapes "boom" "p1" demoRec demoStore (by decide)
  exact ⟨h.1, h.2 demoRec (by decide)⟩

/-- C4 as stated is false: when the record is absent at completion time,
the completion write `TRANSACTIONS[txn_id][...] = ...` (main.py line 53)
raises a KeyError instead of being a successful no-op — the subscript on
a missing key fails.  Concretely, running the worker against an empty
store ends with the KeyError escaping. -/
theorem C4_counterexample :
    process_transaction none "p1" demoRec [] = (some "KeyError", []) := by
  decide

/-- C4 amended: if the record is absent at completion time the completion
step raises an uncaught KeyError rather than succeeding as a no-op; the
store itself is left unchanged.  (In actual program execution this state
is unreachable — records are never deleted and the handler inserts the
record before submitting the task — so the slip has no observable effect
there.) -/
theorem C4_absent_record_keyerror (ts : String) (d : TxnRecord) (s : Store)
    (h : lookupTxn s d.transaction_id = none) :
    process_transaction none ts d s = (some "KeyError", s) := by
  have hst : statusCheck s d.transaction_id = none := by
    simp [statusCheck, h]
  unfold process_transaction
  simp [hst, h]

theorem C4_witness :
    process_transaction none "p1" (seedRecord "a" "b") demoStore =
      (some "KeyError", demoStore) :=
  C4_absent_record_keyerror "p1" (seedRecord "a" "b") demoStore (by decide)

/-! ### Lemmas for the timestamp claim (C8) -/

theorem digitChar_ne_plus (n : Nat) : digitChar n ≠ '+' := by
  unfold digitChar
  split <;> decide

theorem padDigits_ne_plus (w n : Nat) (c : Char)
    (hc : c ∈ padDigits w n) : c ≠ '+' := by
  unfold padDigits at hc
  rcases List.mem_map.mp hc with ⟨i, _, hci⟩
  rw [← hci]
  exact digitChar_ne_plus _

theorem datePartUTC_ne_plus (d : DateTimeUTC) :
    ∀ c ∈ datePartUTC d, c ≠ '+' := by
  intro c hc
  unfold datePartUTC at hc
  simp only [List.mem_append, List.mem_singleton] at hc
  rcases hc with
    ((((((((((h | h) | h) | h) | h) | h) | h) | h) | h) | h) | h) | h
  · exact padDigits_ne_plus _ _ _ h
  · rw [h]; decide
  · exact padDigits_ne_plus _ _ _ h
  · rw [h]; decide
  · exact padDigits_ne_plus _ _ _ h
  · rw [h]; decide
  · exact padDigits_ne_plus _ _ _ h
  · rw [h]; decide
  · exact padDigits_ne_plus _ _ _ h
  · rw [h]; decide
  · exact padDigits_ne_plus _ _ _ h
  · split at h
    · exact absurd h (List.not_mem_nil c)
    · rcases List.mem_cons.mp h with h' | h'
      · rw [h']; decide
      · exact padDigits_ne_plus _ _ _ h'

theorem replaceAll_offset (q : List Char) (hq : ∀ c ∈ q, c ≠ '+') :
    replaceAll utcOffsetChars ['Z'] (q ++ utcOffsetChars) = q ++ ['Z'] := by
  induction q with
  | nil =>
    simp only [List.nil_append]
    simp [replaceAll, leadsWith, utcOffsetChars]
  | cons c q' ih =>
    have hc : c ≠ '+' := hq c (List.mem_cons_self c q')
    have hlead :
        leadsWith utcOffsetChars (c :: (q' ++ utcOffsetChars)) = false := by
      show (decide ('+' = c) && _) = false
      rw [decide_eq_false (fun h => hc h.symm)]
      rfl
    rw [List.cons_append, replaceAll]
    simp only [hlead, Bool.false_and, if_neg, Bool.false_eq_true,
      not_false_iff]
    rw [ih (fun a ha => hq a (List.mem_cons_of_mem c ha))]
    rfl

theorem not_containsSub_offset (t : List Char)
    (ht : ∀ c ∈ t, c ≠ '+') : containsSub utcOffsetChars t = false := by
  induction t with
  | nil => rfl
  | cons d t' ih =>
    have hd : d ≠ '+' := ht d (List.mem_cons_self d t')
    have hlead : leadsWith utcOffsetChars (d :: t') = false := by
      show (decide ('+' = d) && _) = false
      rw [decide_eq_false (fun h => hd h.symm)]
      rfl
    show (leadsWith utcOffsetChars (d :: t') ||
      containsSub utcOffsetChars t') = false
    rw [hlead, ih (fun a ha => ht a (List.mem_cons_of_mem d ha))]
    rfl

/-- C8: every timestamp the system produces comes from
`get_utc_timestamp` (main.py lines 25-27; it is the sole source of
`created_at`, `processed_at` and the health probe's `current_time`), and
for every wall-clock reading its output is the ISO-8601 date-time part
followed by the letter Z — so it ends in Z — and the offset form
`+00:00` occurs nowhere in it. -/
theorem C8_timestamp_z_not_offset (d : DateTimeUTC) :
    get_utc_timestamp d = datePartUTC d ++ ['Z'] ∧
    (get_utc_timestamp d).getLast? = some 'Z' ∧
    containsSub utcOffsetChars (get_utc_timestamp d) = false := by
  have h1 : get_utc_timestamp d = datePartUTC d ++ ['Z'] := by
    unfold get_utc_timestamp isoformatUTC
    exact replaceAll_offset (datePartUTC d) (datePartUTC_ne_plus d)
  refine ⟨h1, ?_, ?_⟩
  · rw [h1]
    exact List.getLast?_concat _
  · rw [h1]
    apply not_containsSub_offset
    intro c hc
    rcases List.mem_append.mp hc with h | h
    · exact datePartUTC_ne_plus d c h
    · rw [List.mem_singleton.mp h]
      decide

/-! ### Claim C1: interleaved duplicate submissions -/

/-- C1 as stated is false: the completion write of main.py lines 52-54 is
an unconditional assignment, not a compare-and-set.  With two duplicate
attempts over a PROCESSING record, the schedule check(0), check(1),
write(0), write(1) first leaves attempt 1 still sleeping while the status
is already PROCESSED, and attempt 1 then writes anyway: `processed_at` is
assigned twice, with two distinct values, and neither attempt takes the
skip path. -/
theorem C1_counterexample :
    (runSched (JAtom.str "t1") c1Init [0, 1, 0]).pcs.get? 1 =
      some WPc.sleeping ∧
    statusCheck (runSched (JAtom.str "t1") c1Init [0, 1, 0]).store
      (JAtom.str "t1") = some Status.PROCESSED ∧
    (runSched (JAtom.str "t1") c1Init [0, 1, 0, 1]).palog =
      [tsOf 0, tsOf 1] ∧
    tsOf 0 ≠ tsOf 1 ∧
    (runSched (JAtom.str "t1") c1Init [0, 1, 0, 1]).pcs =
      [WPc.written, WPc.written] := by
  decide

/-- C1 amended: an attempt whose status check runs after some completion
write has set the status to PROCESSED takes the skip path — its step
changes only its own program counter and leaves the store, the
`processed_at` history and the clock untouched; but the completion write
itself is unconditional (no compare-and-set), so an attempt that already
passed its check writes status PROCESSED and a fresh `processed_at` value
regardless of the record's current status — hence duplicate attempts
whose checks all precede the first completion each set `processed_at`,
the last value winning. -/
theorem C1_skip_and_unconditional_write (id : JAtom) (c : CState)
    (i : Nat) :
    (c.pcs.get? i = some WPc.preCheck →
      statusCheck c.store id = some Status.PROCESSED →
      wstep id c i = { c with pcs := c.pcs.set i WPc.skipped }) ∧
    (∀ r, c.pcs.get? i = some WPc.sleeping →
      lookupTxn c.store id = some r →
      wstep id c i =
        { pcs := c.pcs.set i WPc.written
          store := setTxn c.store id
            { r with status := Status.PROCESSED
                     processed_at := some (tsOf c.tick) }
          palog := c.palog ++ [tsOf c.tick]
          tick := c.tick + 1 }) := by
  constructor
  · intro h1 h2
    unfold wstep
    rw [h1]
    simp [h2]
  · intro r h1 h2
    unfold wstep
    rw [h1, h2]

/-- The t1 record after a completed processing run. -/
def processedRec : TxnRecord :=
  { demoRec with status := Status.PROCESSED, processed_at := some "x" }

/-- One late attempt whose status check is still pending after a
completion write already happened. -/
def cSkipDemo : CState :=
  { pcs := [WPc.preCheck]
    store := [(JAtom.str "t1", processedRec)]
    palog := ["x"]
    tick := 1 }

/-- One attempt past its check, about to perform the completion write. -/
def cWriteDemo : CState :=
  { pcs := [WPc.sleeping]
    store := demoStore
    palog := []
    tick := 0 }

theorem C1_witness :
    wstep (JAtom.str "t1") cSkipDemo 0 =
      { cSkipDemo with pcs := cSkipDemo.pcs.set 0 WPc.skipped } ∧
    wstep (JAtom.str "t1") cWriteDemo 0 =
      { pcs := cWriteDemo.pcs.set 0 WPc.written
        store := setTxn cWriteDemo.store (JAtom.str "t1")
          { demoRec with status := Status.PROCESSED
                         processed_at := some (tsOf cWriteDemo.tick) }
        palog := cWriteDemo.palog ++ [tsOf cWriteDemo.tick]
        tick := cWriteDemo.tick + 1 } :=
  ⟨(C1_skip_and_unconditional_write (JAtom.str "t1") cSkipDemo 0).1
      (by decide) (by decide),
    (C1_skip_and_unconditional_write (JAtom.str "t1") cWriteDemo 0).2
      demoRec (by decide) (by decide)⟩

end BackendAssessment
